import Mathlib

/-!
Verification development for the logistics-dashboard repository
(shops, drivers, routes, targets managed by an in-memory store, a Zod
validation layer, Express HTTP handlers and a client route optimizer).

The JavaScript/TypeScript code is shallowly embedded: JS values are the
inductive type Value (numbers as rationals), JS objects are association
lists of string keys, the object spread operator is the function
spread, JS Map operations are mapGet / mapSet / mapDel, and each
source function (TestMemStorage methods, Zod insert schemas, Express
handlers, the RouteOptimizer mutation callbacks) becomes a Lean
definition translated from its source.
-/

set_option autoImplicit false

namespace NatureFrontier

/-- A JavaScript runtime value, restricted to the shapes this code base
uses: strings, numbers (modelled as rationals), booleans, null, and
arrays of strings (shopIds, optimizedOrder, suggestions). -/
inductive Value where
  | vStr (s : String)
  | vNum (q : ℚ)
  | vBool (b : Bool)
  | vNull
  | vArrStr (l : List String)
deriving DecidableEq

/-- A JavaScript object: an association list from keys to values, in
key-insertion order. -/
abbrev Obj : Type := List (String × Value)

/-- Property access o[k]: the value at the first (in a well-formed JS
object: the only) occurrence of key k, or none when the key is absent. -/
def getField : Obj → String → Option Value
  | [], _ => none
  | p :: rest, k => if p.1 = k then some p.2 else getField rest k

/-- The JS object spread expression with the braces around a spread of
a then b: keys of a in their order, values overridden by b where b also
has the key, followed by the keys only b has. -/
def spread (a b : Obj) : Obj :=
  a.map (fun p => (p.1, (getField b p.1).getD p.2))
    ++ b.filter (fun p => (getField a p.1).isNone)

/-! JS Map model: association lists with get / set / delete matching
the semantics of the built-in Map on string keys. -/

/-- Entry lookup, the Map get method. -/
def mapGet : List (String × Obj) → String → Option Obj
  | [], _ => none
  | p :: rest, k => if p.1 = k then some p.2 else mapGet rest k

/-- The Map set method: overwrite the binding in place when the key is
present, otherwise append the new binding at the end. -/
def mapSet : List (String × Obj) → String → Obj → List (String × Obj)
  | [], k, v => [(k, v)]
  | p :: rest, k, v => if p.1 = k then (k, v) :: rest else p :: mapSet rest k v

/-- Removal part of the Map delete method: drop every binding of the
key (a well-formed map holds at most one). -/
def mapDel : List (String × Obj) → String → List (String × Obj)
  | [], _ => []
  | p :: rest, k => if p.1 = k then mapDel rest k else p :: mapDel rest k

/-- Boolean result of the Map delete method: whether the key was bound. -/
def mapHas (m : List (String × Obj)) (k : String) : Bool :=
  (mapGet m k).isSome

/-! In-memory storage layer, translated from the TestMemStorage class:
four Map fields, one shared idCounter, and per-kind CRUD methods that
are textually identical across the four kinds.  The per-kind methods
are embedded once, indexed by the entity kind. -/

/-- One of the four entity kinds held by the store. -/
inductive Kind where
  | shop
  | driver
  | route
  | target
deriving DecidableEq

/-- State of a TestMemStorage instance: the four Maps and the private
idCounter (initially 0). -/
structure TestMemStorage where
  shops : List (String × Obj)
  drivers : List (String × Obj)
  routes : List (String × Obj)
  targets : List (String × Obj)
  idCounter : Nat
deriving DecidableEq

namespace TestMemStorage

/-- A freshly constructed store: all four Maps empty, counter 0. -/
def init : TestMemStorage :=
  { shops := [], drivers := [], routes := [], targets := [], idCounter := 0 }

/-- The Map that holds records of the given kind. -/
def kindMap (s : TestMemStorage) : Kind → List (String × Obj)
  | Kind.shop => s.shops
  | Kind.driver => s.drivers
  | Kind.route => s.routes
  | Kind.target => s.targets

/-- Replace the Map of the given kind. -/
def withKindMap (s : TestMemStorage) : Kind → List (String × Obj) → TestMemStorage
  | Kind.shop, m => { s with shops := m }
  | Kind.driver, m => { s with drivers := m }
  | Kind.route, m => { s with routes := m }
  | Kind.target, m => { s with targets := m }

/-- The genId method: pre-increment the counter and build the string
with the test-id- prefix followed by the decimal counter. -/
def genId (s : TestMemStorage) : String × TestMemStorage :=
  ("test-id-" ++ Nat.repr (s.idCounter + 1),
    { s with idCounter := s.idCounter + 1 })

/-- The createShop / createDriver / createRoute / createTarget methods:
generate an id, build the record as a spread of data with the braces
around a spread of data then id, store it under the id, return it. -/
def create (s : TestMemStorage) (k : Kind) (data : Obj) :
    Obj × TestMemStorage :=
  let ids := genId s
  let record := spread data [("id", Value.vStr ids.1)]
  (record, withKindMap ids.2 k (mapSet (kindMap ids.2 k) ids.1 record))

/-- The getShop / getDriver / getRoute / getTarget methods. -/
def getById (s : TestMemStorage) (k : Kind) (id : String) : Option Obj :=
  mapGet (s.kindMap k) id

/-- The updateShop / updateDriver / updateRoute / updateTarget
methods: undefined when the id is unknown, otherwise the shallow merge
of the stored record with the updates object, stored back and
returned. -/
def update (s : TestMemStorage) (k : Kind) (id : String) (updates : Obj) :
    Option Obj × TestMemStorage :=
  match mapGet (s.kindMap k) id with
  | none => (none, s)
  | some record =>
      let updated := spread record updates
      (some updated, withKindMap s k (mapSet (s.kindMap k) id updated))

/-- The deleteShop / deleteDriver / deleteRoute / deleteTarget
methods: the Map delete call, returning whether a record existed. -/
def deleteById (s : TestMemStorage) (k : Kind) (id : String) :
    Bool × TestMemStorage :=
  (mapHas (s.kindMap k) id, withKindMap s k (mapDel (s.kindMap k) id))

end TestMemStorage

/-! Decimal rendering used by the id generators. -/

/-- Numeric value of a decimal digit character. -/
def digitVal (c : Char) : Nat := c.toNat - 48

/-- Interpret a list of decimal digit characters as a number, most
significant first. -/
def interpDigits (l : List Char) : Nat :=
  l.foldl (fun a c => 10 * a + digitVal c) 0

/-- The id strings produced by the storage genId method, as a function
of the counter value. -/
def idString (n : Nat) : String := "test-id-" ++ Nat.repr n

/-! Sequences of create and delete operations against one store
instance, used to state lifetime-wide id uniqueness. -/

/-- One store operation: a create with caller-supplied data, or a
delete of an id, each against a chosen entity kind. -/
inductive Op where
  | createOp (k : Kind) (data : Obj)
  | deleteOp (k : Kind) (id : String)

/-- Run a sequence of operations, collecting the records returned by
the create calls. -/
def runOps : TestMemStorage → List Op → List Obj × TestMemStorage
  | s, [] => ([], s)
  | s, Op.createOp k d :: rest =>
      let c := TestMemStorage.create s k d
      let r := runOps c.2 rest
      (c.1 :: r.1, r.2)
  | s, Op.deleteOp k id :: rest =>
      runOps (TestMemStorage.deleteById s k id).2 rest

/-- Number of create operations in a sequence. -/
def numCreates : List Op → Nat
  | [] => 0
  | Op.createOp _ _ :: rest => numCreates rest + 1
  | Op.deleteOp _ _ :: rest => numCreates rest

/-! Validation layer: the Zod insert schemas of the shared schema
module.  A schema is a list of field names with the Zod check attached
to each; safeParse checks every field, collecting one issue per failing
field, and otherwise returns the normalized object (unknown keys
stripped, optional absent fields dropped, defaults filled in). -/

/-- The per-field Zod checks used by the four insert schemas. -/
inductive FieldCheck where
  | str (minLen : Nat)
  | strOptNullable
  | num
  | numOptNullable
  | numInt
  | numIntDefault (d : ℚ)
  | strDefault (d : String)
  | arrStrDefault (d : List String)
deriving DecidableEq

/-- A Zod object schema: field names with their checks, in source
order. -/
abbrev Schema : Type := List (String × FieldCheck)

/-- Check one field value against its Zod check.  Errors carry the Zod
issue flavour; ok none means the key is dropped from the output, ok
some v means the output binds the key to v (the input value or the
default). -/
def checkField : FieldCheck → Option Value → Except String (Option Value)
  | FieldCheck.str _, none => Except.error "Required"
  | FieldCheck.str minLen, some (Value.vStr s) =>
      if minLen ≤ s.length then Except.ok (some (Value.vStr s))
      else Except.error "String too small"
  | FieldCheck.str _, some _ => Except.error "Expected string"
  | FieldCheck.strOptNullable, none => Except.ok none
  | FieldCheck.strOptNullable, some Value.vNull => Except.ok (some Value.vNull)
  | FieldCheck.strOptNullable, some (Value.vStr s) => Except.ok (some (Value.vStr s))
  | FieldCheck.strOptNullable, some _ => Except.error "Expected string"
  | FieldCheck.num, none => Except.error "Required"
  | FieldCheck.num, some (Value.vNum q) => Except.ok (some (Value.vNum q))
  | FieldCheck.num, some _ => Except.error "Expected number"
  | FieldCheck.numOptNullable, none => Except.ok none
  | FieldCheck.numOptNullable, some Value.vNull => Except.ok (some Value.vNull)
  | FieldCheck.numOptNullable, some (Value.vNum q) => Except.ok (some (Value.vNum q))
  | FieldCheck.numOptNullable, some _ => Except.error "Expected number"
  | FieldCheck.numInt, none => Except.error "Required"
  | FieldCheck.numInt, some (Value.vNum q) =>
      if q.den = 1 then Except.ok (some (Value.vNum q))
      else Except.error "Expected integer"
  | FieldCheck.numInt, some _ => Except.error "Expected number"
  | FieldCheck.numIntDefault d, none => Except.ok (some (Value.vNum d))
  | FieldCheck.numIntDefault _, some (Value.vNum q) =>
      if q.den = 1 then Except.ok (some (Value.vNum q))
      else Except.error "Expected integer"
  | FieldCheck.numIntDefault _, some _ => Except.error "Expected number"
  | FieldCheck.strDefault d, none => Except.ok (some (Value.vStr d))
  | FieldCheck.strDefault _, some (Value.vStr s) => Except.ok (some (Value.vStr s))
  | FieldCheck.strDefault _, some _ => Except.error "Expected string"
  | FieldCheck.arrStrDefault d, none => Except.ok (some (Value.vArrStr d))
  | FieldCheck.arrStrDefault _, some (Value.vArrStr l) => Except.ok (some (Value.vArrStr l))
  | FieldCheck.arrStrDefault _, some _ => Except.error "Expected array"

/-- Walk the schema fields over the raw input: the normalized bindings
and the names of the fields whose check failed. -/
def parseFields (input : Obj) : Schema → Obj × List String
  | [] => ([], [])
  | (name, c) :: rest =>
      let r := parseFields input rest
      match checkField c (getField input name) with
      | Except.error _ => (r.1, name :: r.2)
      | Except.ok none => (r.1, r.2)
      | Except.ok (some v) => ((name, v) :: r.1, r.2)

/-- The Zod safeParse entry point on an object schema: the normalized
record when no field check failed, otherwise the failure listing every
violated field. -/
def safeParse (sch : Schema) (input : Obj) : Except (List String) Obj :=
  let r := parseFields input sch
  if r.2 = [] then Except.ok r.1 else Except.error r.2

/-- Whether a safeParse outcome is a success. -/
def parseOk {e a : Type} : Except e a → Bool
  | Except.ok _ => true
  | Except.error _ => false

/-- The insertShopSchema Zod object. -/
def insertShopSchema : Schema :=
  [("name", FieldCheck.str 1),
   ("ownerName", FieldCheck.strOptNullable),
   ("phone", FieldCheck.strOptNullable),
   ("address", FieldCheck.strOptNullable),
   ("latitude", FieldCheck.num),
   ("longitude", FieldCheck.num),
   ("category", FieldCheck.strDefault "retail"),
   ("status", FieldCheck.strDefault "active"),
   ("addedBy", FieldCheck.strOptNullable),
   ("notes", FieldCheck.strOptNullable)]

/-- The insertDriverSchema Zod object. -/
def insertDriverSchema : Schema :=
  [("name", FieldCheck.str 1),
   ("phone", FieldCheck.str 1),
   ("vehicleType", FieldCheck.str 1),
   ("vehiclePlate", FieldCheck.strOptNullable),
   ("status", FieldCheck.strDefault "available"),
   ("currentLatitude", FieldCheck.numOptNullable),
   ("currentLongitude", FieldCheck.numOptNullable)]

/-- The insertRouteSchema Zod object. -/
def insertRouteSchema : Schema :=
  [("name", FieldCheck.str 1),
   ("driverId", FieldCheck.strOptNullable),
   ("shopIds", FieldCheck.arrStrDefault []),
   ("status", FieldCheck.strDefault "planned"),
   ("estimatedDistance", FieldCheck.numOptNullable),
   ("estimatedTime", FieldCheck.numOptNullable),
   ("date", FieldCheck.str 1)]

/-- The insertTargetSchema Zod object. -/
def insertTargetSchema : Schema :=
  [("driverId", FieldCheck.str 1),
   ("period", FieldCheck.str 1),
   ("targetShops", FieldCheck.numInt),
   ("targetDeliveries", FieldCheck.numInt),
   ("completedShops", FieldCheck.numIntDefault 0),
   ("completedDeliveries", FieldCheck.numIntDefault 0),
   ("startDate", FieldCheck.str 1),
   ("endDate", FieldCheck.str 1)]

/-! HTTP surface: the Express test app of the integration suite.  The
handlers close over four Maps and a counter whose genId uses the test-
prefix. -/

/-- An HTTP response: status code and optional JSON object body (the
204 delete response has none). -/
structure HttpResp where
  status : Nat
  body : Option Obj
deriving DecidableEq

/-- State of the Express test app: the four Maps and the idCounter of
the closure. -/
structure AppState where
  shops : List (String × Obj)
  drivers : List (String × Obj)
  routes : List (String × Obj)
  targets : List (String × Obj)
  idCounter : Nat
deriving DecidableEq

/-- The app state at server start: empty Maps, counter 0. -/
def AppState.init : AppState :=
  { shops := [], drivers := [], routes := [], targets := [], idCounter := 0 }

/-- The app genId closure: test- prefix followed by the incremented
counter. -/
def appGenId (n : Nat) : String := "test-" ++ Nat.repr n

/-- JS truthiness of an optional property: absent, null, empty string,
zero and false are falsy. -/
def truthy : Option Value → Bool
  | none => false
  | some (Value.vStr s) => if s = "" then false else true
  | some (Value.vNum q) => if q = 0 then false else true
  | some (Value.vBool b) => b
  | some Value.vNull => false
  | some (Value.vArrStr _) => true

/-- The JS loose comparison of a property with null: true exactly for
null and undefined. -/
def isNullish : Option Value → Bool
  | none => true
  | some Value.vNull => true
  | some _ => false

/-- The POST /api/shops handler: 400 when name is falsy or latitude or
longitude is nullish, otherwise generate an id, build the object as id
spread before the request body, store and answer 201.  Because the body
is spread after the id, a body-supplied id overrides the generated one
here. -/
def postShops (st : AppState) (body : Obj) : HttpResp × AppState :=
  if !truthy (getField body "name")
      || isNullish (getField body "latitude")
      || isNullish (getField body "longitude") then
    ({ status := 400, body := some [("error", Value.vStr "Invalid shop data")] }, st)
  else
    let id := appGenId (st.idCounter + 1)
    let shop := spread [("id", Value.vStr id)] body
    ({ status := 201, body := some shop },
      { st with shops := mapSet st.shops id shop, idCounter := st.idCounter + 1 })

/-- The POST /api/routes handler: 400 when name or date is falsy,
otherwise generate an id and build the route as id, default status
planned and default empty shopIds, spread before the request body. -/
def postRoutes (st : AppState) (body : Obj) : HttpResp × AppState :=
  if !truthy (getField body "name") || !truthy (getField body "date") then
    ({ status := 400, body := some [("error", Value.vStr "Invalid route data")] }, st)
  else
    let id := appGenId (st.idCounter + 1)
    let route := spread
      [("id", Value.vStr id), ("status", Value.vStr "planned"),
       ("shopIds", Value.vArrStr [])] body
    ({ status := 201, body := some route },
      { st with routes := mapSet st.routes id route, idCounter := st.idCounter + 1 })

/-- Modelled from the spec: the repository's GET one-route handler is
not under src (the test app replicates the shop version only); per the
HTTP surface table and the shop handler pattern, get one answers 200
with the record, 404 when the id is absent. -/
def getRoutes_id (st : AppState) (id : String) : HttpResp :=
  match mapGet st.routes id with
  | none => { status := 404, body := some [("error", Value.vStr "Route not found")] }
  | some r => { status := 200, body := some r }

/-- Modelled from the spec: the repository's PATCH route handler is not
under src; per the HTTP surface table and the PATCH /api/shops/:id
handler pattern, patch answers 404 when absent, otherwise stores and
answers 200 with the shallow merge of the stored record and the body. -/
def patchRoutes_id (st : AppState) (id : String) (body : Obj) :
    HttpResp × AppState :=
  match mapGet st.routes id with
  | none => ({ status := 404, body := some [("error", Value.vStr "Route not found")] }, st)
  | some r =>
      let updated := spread r body
      ({ status := 200, body := some updated },
        { st with routes := mapSet st.routes id updated })

/-- Modelled from the spec: the repository's DELETE route handler is
not under src; per the HTTP surface table and the DELETE /api/shops/:id
handler pattern, delete answers 404 when absent, otherwise removes the
record and answers 204 with no body. -/
def delRoutes_id (st : AppState) (id : String) : HttpResp × AppState :=
  match mapGet st.routes id with
  | none => ({ status := 404, body := some [("error", Value.vStr "Route not found")] }, st)
  | some _ => ({ status := 204, body := none }, { st with routes := mapDel st.routes id })

/-! Route optimization contract: the client RouteOptimizer component
and its mutation callbacks, with the server optimization endpoint
modelled from the spec. -/

/-- Result of an AI route optimization operation, per the client
interface declaration. -/
structure RouteOptimizationResult where
  optimizedOrder : List String
  originalDistance : ℚ
  optimizedDistance : ℚ
  timeSaved : ℚ
  fuelSaved : ℚ
  suggestions : List String
deriving DecidableEq

/-- Client-side state the optimize mutation touches: the cached
optimization history (the route-optimizations query data) and the toast
notices shown so far. -/
structure ClientState where
  optimizationHistory : List RouteOptimizationResult
  toasts : List String
deriving DecidableEq

/-- The onSuccess callback of optimizeMutation: show the Route
Optimized toast and invalidate the history query, whose refetch against
the flat append-only server history makes the cache the old history
with the new result appended. -/
def onOptimizeSuccess (st : ClientState) (d : RouteOptimizationResult) : ClientState :=
  { st with toasts := st.toasts ++ ["Route Optimized"],
            optimizationHistory := st.optimizationHistory ++ [d] }

/-- The onError callback of optimizeMutation: show the Optimization
Failed toast; the history query is not invalidated, so the cache keeps
its value. -/
def onOptimizeError (st : ClientState) : ClientState :=
  { st with toasts := st.toasts ++ ["Optimization Failed"] }

/-- Modelled from the spec: the POST /api/analytics/optimize-route/:id
server handler is not under src.  Per the spec it either returns a
RouteOptimizationResult whose timeSaved and fuelSaved are non-negative
or fails; the oracle argument stands for the outcome of the opaque
external algorithm, screened against that guarantee. -/
def optimizeCollaborator (oracle : Option RouteOptimizationResult) :
    Except Unit RouteOptimizationResult :=
  match oracle with
  | some r =>
      if 0 ≤ r.timeSaved ∧ 0 ≤ r.fuelSaved then Except.ok r else Except.error ()
  | none => Except.error ()

/-- One full optimize interaction: the mutation resolves against the
collaborator and the matching callback updates the client state. -/
def runOptimize (st : ClientState) (oracle : Option RouteOptimizationResult) :
    Except Unit RouteOptimizationResult × ClientState :=
  match optimizeCollaborator oracle with
  | Except.ok r => (Except.ok r, onOptimizeSuccess st r)
  | Except.error e => (Except.error e, onOptimizeError st)

/-! Theorems.  First the lookup characterizations of spread and the
Map operations, then the claim theorems. -/

theorem getField_append (x y : Obj) (k : String) :
    getField (x ++ y) k =
      if (getField x k).isSome then getField x k else getField y k := by
  induction x with
  | nil => simp [getField]
  | cons p rest ih =>
      by_cases h : p.1 = k <;> simp [getField, h, ih]

theorem getField_filter_congr (b : Obj) (k : String)
    (f g : String × Value → Bool)
    (h : ∀ p : String × Value, p.1 = k → f p = g p) :
    getField (b.filter f) k = getField (b.filter g) k := by
  induction b with
  | nil => rfl
  | cons p rest ih =>
      by_cases hk : p.1 = k
      · have hfg : f p = g p := h p hk
        cases hf : f p <;> cases hg : g p <;>
          simp [List.filter_cons, hf, hg, getField, hk, ih] <;>
          simp [hf, hg, hfg] at *
      · cases hf : f p <;> cases hg : g p <;>
          simp [List.filter_cons, hf, hg, getField, hk, ih]

theorem getField_filter_key_kept (b : Obj) (k : String)
    (f : String × Value → Bool) (h : ∀ p : String × Value, p.1 = k → f p = true) :
    getField (b.filter f) k = getField b k := by
  induction b with
  | nil => rfl
  | cons p rest ih =>
      by_cases hk : p.1 = k
      · simp [List.filter_cons, h p hk, getField, hk]
      · cases hf : f p <;> simp [List.filter_cons, hf, getField, hk, ih]

/-- Lookup semantics of the spread operator: b wins on shared keys,
otherwise a's binding shows through. -/
theorem getField_spread (a b : Obj) (k : String) :
    getField (spread a b) k =
      if (getField b k).isSome then getField b k else getField a k := by
  induction a with
  | nil =>
      show getField ([] ++ b.filter _) k = _
      rw [List.nil_append]
      cases hb : getField b k with
      | none =>
          simp only [hb, Option.isSome_none, Bool.false_eq_true, if_false]
          rw [getField_filter_key_kept b k _ (fun p _ => by simp [getField])]
          simp [hb, getField]
      | some v =>
          simp only [hb, Option.isSome_some, if_true]
          rw [getField_filter_key_kept b k _ (fun p _ => by simp [getField])]
          exact hb
  | cons p rest ih =>
      show getField ((p.1, (getField b p.1).getD p.2) ::
        (rest.map _ ++ b.filter _)) k = _
      by_cases hk : p.1 = k
      · subst hk
        simp only [getField, if_pos rfl]
        cases hb : getField b p.1 <;> simp [hb, getField]
      · simp only [getField, if_neg hk]
        have hcongr :
            getField (b.filter
              (fun q => (if p.1 = q.1 then some p.2 else getField rest q.1).isNone)) k =
              getField (b.filter (fun q => (getField rest q.1).isNone)) k := by
          refine getField_filter_congr b k _ _ (fun q hq => ?_)
          rw [hq, if_neg hk]
        rw [getField_append, hcongr, ← getField_append]
        exact ih

theorem mapGet_mapSet_self (m : List (String × Obj)) (k : String) (v : Obj) :
    mapGet (mapSet m k v) k = some v := by
  induction m with
  | nil => simp [mapSet, mapGet]
  | cons p rest ih =>
      by_cases h : p.1 = k <;> simp [mapSet, h, mapGet, ih]

theorem mapGet_mapDel_self (m : List (String × Obj)) (k : String) :
    mapGet (mapDel m k) k = none := by
  induction m with
  | nil => rfl
  | cons p rest ih =>
      by_cases h : p.1 = k <;> simp [mapDel, h, mapGet, ih]

theorem mapDel_mapDel (m : List (String × Obj)) (k : String) :
    mapDel (mapDel m k) k = mapDel m k := by
  induction m with
  | nil => rfl
  | cons p rest ih =>
      by_cases h : p.1 = k <;> simp [mapDel, h, ih]

theorem kindMap_withKindMap_self (s : TestMemStorage) (k : Kind)
    (m : List (String × Obj)) :
    TestMemStorage.kindMap (TestMemStorage.withKindMap s k m) k = m := by
  cases k <;> rfl

theorem idCounter_withKindMap (s : TestMemStorage) (k : Kind)
    (m : List (String × Obj)) :
    (TestMemStorage.withKindMap s k m).idCounter = s.idCounter := by
  cases k <;> rfl

/-! Injectivity of the decimal rendering used by genId.  Nat.repr is
defined through Nat.toDigitsCore; interpreting the produced characters
back as a number recovers the input, hence the rendering is injective
and so is the whole generated id string. -/

theorem foldl_digits_shift (l : List Char) (a : Nat) :
    l.foldl (fun a c => 10 * a + digitVal c) a =
      a * 10 ^ l.length + interpDigits l := by
  induction l generalizing a with
  | nil => simp [interpDigits]
  | cons c l ih =>
      show l.foldl _ (10 * a + digitVal c) = _
      rw [ih]
      have hc : interpDigits (c :: l) = digitVal c * 10 ^ l.length + interpDigits l := by
        show l.foldl _ (10 * 0 + digitVal c) = _
        rw [ih]
        ring_nf
      rw [hc]
      simp [List.length_cons, pow_succ]
      ring

theorem digitVal_digitChar : ∀ d : Nat, d < 10 → digitVal (Nat.digitChar d) = d := by
  decide

theorem interp_toDigitsCore :
    ∀ (fuel n : Nat) (ds : List Char), n < 10 ^ fuel →
      interpDigits (Nat.toDigitsCore 10 fuel n ds) =
        n * 10 ^ ds.length + interpDigits ds := by
  intro fuel
  induction fuel with
  | zero =>
      intro n ds h
      have hn : n = 0 := by omega
      subst hn
      simp [Nat.toDigitsCore]
  | succ fuel ih =>
      intro n ds h
      have hmod : n % 10 < 10 := Nat.mod_lt _ (by omega)
      have hdigit : digitVal (Nat.digitChar (n % 10)) = n % 10 :=
        digitVal_digitChar _ hmod
      by_cases hdiv : n / 10 = 0
      · have hn : n < 10 := by omega
        have : Nat.toDigitsCore 10 (fuel + 1) n ds = Nat.digitChar (n % 10) :: ds := by
          simp [Nat.toDigitsCore, hdiv]
        rw [this]
        have : interpDigits (Nat.digitChar (n % 10) :: ds) =
            digitVal (Nat.digitChar (n % 10)) * 10 ^ ds.length + interpDigits ds := by
          show ds.foldl _ (10 * 0 + digitVal (Nat.digitChar (n % 10))) = _
          rw [foldl_digits_shift]
          ring_nf
        rw [this, hdigit, Nat.mod_eq_of_lt hn]
      · have hstep : Nat.toDigitsCore 10 (fuel + 1) n ds =
            Nat.toDigitsCore 10 fuel (n / 10) (Nat.digitChar (n % 10) :: ds) := by
          simp [Nat.toDigitsCore, hdiv]
        have hlt : n / 10 < 10 ^ fuel := by
          have h10 : (10 : Nat) ^ (fuel + 1) = 10 * 10 ^ fuel := by ring
          rw [h10] at h
          exact Nat.div_lt_of_lt_mul h
        rw [hstep, ih (n / 10) (Nat.digitChar (n % 10) :: ds) hlt]
        have hcons : interpDigits (Nat.digitChar (n % 10) :: ds) =
            (n % 10) * 10 ^ ds.length + interpDigits ds := by
          show ds.foldl _ (10 * 0 + digitVal (Nat.digitChar (n % 10))) = _
          rw [foldl_digits_shift, hdigit]
          ring_nf
        rw [hcons]
        have hsplit : n = 10 * (n / 10) + n % 10 := (Nat.div_add_mod n 10).symm ▸ by omega
        calc n / 10 * 10 ^ (ds.length + 1) + ((n % 10) * 10 ^ ds.length + interpDigits ds)
            = (10 * (n / 10) + n % 10) * 10 ^ ds.length + interpDigits ds := by ring
          _ = n * 10 ^ ds.length + interpDigits ds := by rw [← hsplit]

theorem interp_repr (n : Nat) : interpDigits (Nat.toDigits 10 n) = n := by
  have h : n < 10 ^ (n + 1) := by
    calc n < 10 ^ n := Nat.lt_pow_self (by omega) n
      _ ≤ 10 ^ (n + 1) := Nat.pow_le_pow_right (by omega) (Nat.le_succ n)
  have := interp_toDigitsCore (n + 1) n [] h
  simpa [Nat.toDigits, interpDigits] using this

theorem natRepr_injective : Function.Injective Nat.repr := by
  intro m n h
  have hdata : (Nat.toDigits 10 m) = (Nat.toDigits 10 n) := by
    have : (Nat.toDigits 10 m).asString = (Nat.toDigits 10 n).asString := h
    simpa [List.asString] using congrArg String.data this
  calc m = interpDigits (Nat.toDigits 10 m) := (interp_repr m).symm
    _ = interpDigits (Nat.toDigits 10 n) := by rw [hdata]
    _ = n := interp_repr n

theorem idString_injective : Function.Injective idString := by
  intro m n h
  apply natRepr_injective
  apply String.ext
  have := congrArg String.data h
  simpa [idString, String.data_append] using this

/-! Facts about the storage create and delete used for lifetime id
uniqueness. -/

theorem create_getField_id (s : TestMemStorage) (k : Kind) (data : Obj) :
    getField (TestMemStorage.create s k data).1 "id" =
      some (Value.vStr (idString (s.idCounter + 1))) := by
  show getField (spread data [("id", _)]) "id" = _
  rw [getField_spread]
  simp [getField, idString, TestMemStorage.genId]

theorem create_idCounter (s : TestMemStorage) (k : Kind) (data : Obj) :
    (TestMemStorage.create s k data).2.idCounter = s.idCounter + 1 := by
  show (TestMemStorage.withKindMap _ _ _).idCounter = _
  rw [idCounter_withKindMap]
  rfl

theorem deleteById_idCounter (s : TestMemStorage) (k : Kind) (id : String) :
    (TestMemStorage.deleteById s k id).2.idCounter = s.idCounter := by
  show (TestMemStorage.withKindMap _ _ _).idCounter = _
  rw [idCounter_withKindMap]

theorem runOps_ids (ops : List Op) : ∀ s : TestMemStorage,
    (runOps s ops).1.map (fun r => getField r "id") =
      (List.range' (s.idCounter + 1) (numCreates ops)).map
        (fun n => some (Value.vStr (idString n))) := by
  induction ops with
  | nil => intro s; rfl
  | cons op rest ih =>
      intro s
      cases op with
      | createOp k d =>
          show (getField (TestMemStorage.create s k d).1 "id" ::
            (runOps (TestMemStorage.create s k d).2 rest).1.map
              (fun r => getField r "id")) = _
          rw [create_getField_id, ih, create_idCounter]
          simp [numCreates, List.range'_succ]
      | deleteOp k id =>
          show (runOps (TestMemStorage.deleteById s k id).2 rest).1.map
            (fun r => getField r "id") = _
          rw [ih, deleteById_idCounter]
          rfl

/-- C1: for every entity kind and every sequence of create and delete
operations on one store instance started from its initial state, the
ids of the records returned by create are pairwise distinct across the
store's lifetime — deleted ids are never reused, and a caller-supplied
id field in the input data never disturbs this, since the generated id
is spread over the data last. -/
theorem create_ids_pairwise_distinct (ops : List Op) :
    ((runOps TestMemStorage.init ops).1.map (fun r => getField r "id")).Nodup := by
  rw [runOps_ids]
  refine List.Nodup.map ?_ (List.nodup_range' _ _)
  intro a b hab
  apply idString_injective
  have h1 : Value.vStr (idString a) = Value.vStr (idString b) :=
    Option.some.inj hab
  exact Value.vStr.inj h1

/-- C2: for every entity kind, every store state and every patch, an
update addressed to an id not present in the store returns absent and
returns the store completely unchanged. -/
theorem update_unknown_id_no_mutation (s : TestMemStorage) (k : Kind)
    (id : String) (patch : Obj) (h : TestMemStorage.getById s k id = none) :
    TestMemStorage.update s k id patch = (none, s) := by
  unfold TestMemStorage.update
  rw [show mapGet (TestMemStorage.kindMap s k) id = none from h]

/-- Witness for C2 at a concrete input: the fresh store holds no shop
with id missing, and updating it returns absent with the store intact. -/
theorem update_unknown_id_no_mutation_witness :
    TestMemStorage.getById TestMemStorage.init Kind.shop "missing" = none ∧
    TestMemStorage.update TestMemStorage.init Kind.shop "missing"
      [("name", Value.vStr "X")] = (none, TestMemStorage.init) :=
  ⟨rfl, update_unknown_id_no_mutation TestMemStorage.init Kind.shop "missing"
    [("name", Value.vStr "X")] rfl⟩

/-- C3: for every stored record and every patch whose keys are a
subset of the record's fields, update shallow-merges the patch over the
stored record, every field not present in the patch keeps its exact
value, and the returned record is the record a subsequent getById
returns. -/
theorem update_shallow_merge_preserves (s : TestMemStorage) (k : Kind)
    (id : String) (patch r : Obj)
    (hr : TestMemStorage.getById s k id = some r)
    (_hsub : ∀ f : String, (getField patch f).isSome = true →
      (getField r f).isSome = true) :
    (TestMemStorage.update s k id patch).1 = some (spread r patch) ∧
    TestMemStorage.getById (TestMemStorage.update s k id patch).2 k id =
      some (spread r patch) ∧
    ∀ f : String, getField patch f = none →
      getField (spread r patch) f = getField r f := by
  have hm : mapGet (TestMemStorage.kindMap s k) id = some r := hr
  have hupd : TestMemStorage.update s k id patch =
      (some (spread r patch),
        TestMemStorage.withKindMap s k
          (mapSet (TestMemStorage.kindMap s k) id (spread r patch))) := by
    unfold TestMemStorage.update
    rw [hm]
  refine ⟨by rw [hupd], ?_, ?_⟩
  · rw [hupd]
    show mapGet (TestMemStorage.kindMap (TestMemStorage.withKindMap s k _) k) id = _
    rw [kindMap_withKindMap_self, mapGet_mapSet_self]
  · intro f hf
    rw [getField_spread, hf]
    rfl

/-- Witness for C3 at a concrete input: one stored shop, a patch that
rewrites only the name, and the resulting merged record. -/
theorem update_shallow_merge_preserves_witness :
    (TestMemStorage.update
      { shops := [("a", [("name", Value.vStr "Old"), ("latitude", Value.vNum 1)])],
        drivers := [], routes := [], targets := [], idCounter := 1 }
      Kind.shop "a" [("name", Value.vStr "New")]).1 =
      some (spread [("name", Value.vStr "Old"), ("latitude", Value.vNum 1)]
        [("name", Value.vStr "New")]) := by
  have h := update_shallow_merge_preserves
    { shops := [("a", [("name", Value.vStr "Old"), ("latitude", Value.vNum 1)])],
      drivers := [], routes := [], targets := [], idCounter := 1 }
    Kind.shop "a" [("name", Value.vStr "New")]
    [("name", Value.vStr "Old"), ("latitude", Value.vNum 1)]
    rfl
    (fun f hf => by
      by_cases hn : ("name" : String) = f
      · rw [← hn]
        rfl
      · rw [show getField [("name", Value.vStr "New")] f = none by
          simp [getField, hn]] at hf
        exact absurd hf (by simp))
  exact h.1

/-- C4: delete answers exactly whether a record with the id existed,
removes it, and a second delete of the same id answers false and
leaves the number of stored records of that kind unchanged. -/
theorem deleteById_reports_and_idempotent (s : TestMemStorage) (k : Kind)
    (id : String) :
    (TestMemStorage.deleteById s k id).1 =
      (TestMemStorage.getById s k id).isSome ∧
    TestMemStorage.getById (TestMemStorage.deleteById s k id).2 k id = none ∧
    (TestMemStorage.deleteById (TestMemStorage.deleteById s k id).2 k id).1 = false ∧
    (TestMemStorage.kindMap
        (TestMemStorage.deleteById
          (TestMemStorage.deleteById s k id).2 k id).2 k).length =
      (TestMemStorage.kindMap (TestMemStorage.deleteById s k id).2 k).length := by
  have hmap1 : TestMemStorage.kindMap (TestMemStorage.deleteById s k id).2 k =
      mapDel (TestMemStorage.kindMap s k) id := by
    show TestMemStorage.kindMap (TestMemStorage.withKindMap s k _) k = _
    rw [kindMap_withKindMap_self]
  refine ⟨rfl, ?_, ?_, ?_⟩
  · show mapGet (TestMemStorage.kindMap (TestMemStorage.deleteById s k id).2 k) id = none
    rw [hmap1, mapGet_mapDel_self]
  · show mapHas (TestMemStorage.kindMap (TestMemStorage.deleteById s k id).2 k) id = false
    rw [hmap1]
    show (mapGet (mapDel (TestMemStorage.kindMap s k) id) id).isSome = false
    rw [mapGet_mapDel_self]
    rfl
  · have hmap2 : TestMemStorage.kindMap
        (TestMemStorage.deleteById (TestMemStorage.deleteById s k id).2 k id).2 k =
        mapDel (TestMemStorage.kindMap (TestMemStorage.deleteById s k id).2 k) id := by
      show TestMemStorage.kindMap (TestMemStorage.withKindMap _ k _) k = _
      rw [kindMap_withKindMap_self]
    rw [hmap2, hmap1, mapDel_mapDel]

/-- C10: at the storage layer the created record's id is the freshly
generated one and the record is stored under it, even when the caller
data carries its own id field — the caller id is silently overwritten
because the generated id is spread last; in contrast, in the HTTP
create handler the request body is spread after the generated id, so a
body-supplied id survives into the response. -/
theorem storage_create_overwrites_caller_id :
    (∀ (s : TestMemStorage) (k : Kind) (data : Obj),
      getField (TestMemStorage.create s k data).1 "id" =
        some (Value.vStr (idString (s.idCounter + 1))) ∧
      TestMemStorage.getById (TestMemStorage.create s k data).2 k
        (idString (s.idCounter + 1)) = some (TestMemStorage.create s k data).1) ∧
    (postShops AppState.init
        [("name", Value.vStr "X"), ("latitude", Value.vNum 1),
         ("longitude", Value.vNum 2), ("id", Value.vStr "caller-id")]).1.body.map
      (fun b => getField b "id") = some (some (Value.vStr "caller-id")) := by
  constructor
  · intro s k data
    refine ⟨create_getField_id s k data, ?_⟩
    show mapGet (TestMemStorage.kindMap (TestMemStorage.withKindMap _ k _) k) _ = _
    rw [kindMap_withKindMap_self]
    have hid : (TestMemStorage.genId s).1 = idString (s.idCounter + 1) := rfl
    rw [← hid, mapGet_mapSet_self]
    rfl
  · rfl

/-! Validation layer theorems. -/

theorem parseFields_error_mem (input : Obj) :
    ∀ (sch : Schema) (name : String) (c : FieldCheck),
      (name, c) ∈ sch → parseOk (checkField c (getField input name)) = false →
      name ∈ (parseFields input sch).2 := by
  intro sch
  induction sch with
  | nil =>
      intro name c hmem
      exact absurd hmem (List.not_mem_nil _)
  | cons nc rest ih =>
      intro name c hmem hfail
      rcases List.mem_cons.mp hmem with heq | hrest
      · have hname : nc.1 = name := by rw [← heq]
        have hc : nc.2 = c := by rw [← heq]
        show name ∈ (match checkField nc.2 (getField input nc.1) with
          | Except.error _ => ((parseFields input rest).1, nc.1 :: (parseFields input rest).2)
          | Except.ok none => ((parseFields input rest).1, (parseFields input rest).2)
          | Except.ok (some v) => ((nc.1, v) :: (parseFields input rest).1,
              (parseFields input rest).2)).2
        rw [hname, hc]
        cases hcheck : checkField c (getField input name) with
        | error e => simp
        | ok v => rw [hcheck] at hfail; cases v <;> exact absurd hfail (by simp [parseOk])
      · have hmemrest := ih name c hrest hfail
        show name ∈ (match checkField nc.2 (getField input nc.1) with
          | Except.error _ => ((parseFields input rest).1, nc.1 :: (parseFields input rest).2)
          | Except.ok none => ((parseFields input rest).1, (parseFields input rest).2)
          | Except.ok (some v) => ((nc.1, v) :: (parseFields input rest).1,
              (parseFields input rest).2)).2
        cases hcheck : checkField nc.2 (getField input nc.1) with
        | error e => simpa using Or.inr hmemrest
        | ok v => cases v <;> simpa using hmemrest

theorem safeParse_error_of_issue (sch : Schema) (input : Obj)
    (name : String) (c : FieldCheck) (hmem : (name, c) ∈ sch)
    (hfail : parseOk (checkField c (getField input name)) = false) :
    parseOk (safeParse sch input) = false := by
  have h := parseFields_error_mem input sch name c hmem hfail
  unfold safeParse
  have hne : ¬ (parseFields input sch).2 = [] := by
    intro he
    rw [he] at h
    exact absurd h (List.not_mem_nil _)
  rw [if_neg hne]
  rfl

/-- C5: the shop input with name X and Nairobi coordinates passes
validation and the normalized record carries the category retail and
status active defaults; the same input without a name fails; the
driver input without a vehicleType fails. -/
theorem validation_examples :
    (∃ r : Obj, safeParse insertShopSchema
        [("name", Value.vStr "X"), ("latitude", Value.vNum (-1.26)),
         ("longitude", Value.vNum 36.86)] = Except.ok r ∧
      getField r "category" = some (Value.vStr "retail") ∧
      getField r "status" = some (Value.vStr "active")) ∧
    parseOk (safeParse insertShopSchema
      [("latitude", Value.vNum (-1.26)), ("longitude", Value.vNum 36.86)]) = false ∧
    parseOk (safeParse insertDriverSchema
      [("name", Value.vStr "D"), ("phone", Value.vStr "+254700000000")]) = false := by
  refine ⟨⟨_, rfl, ?_, ?_⟩, rfl, rfl⟩ <;> rfl

/-- C6: for every schema, every input and every field, validation
fails whenever a required numeric field holds a string (numeric looking
or not) and whenever an integer field holds a non-integer number; the
shop latitude and the target targetShops of the spec's examples are
such fields. -/
theorem validation_rejects_mistyped_numbers :
    (∀ (sch : Schema) (input : Obj) (name s : String),
      (name, FieldCheck.num) ∈ sch →
      getField input name = some (Value.vStr s) →
      parseOk (safeParse sch input) = false) ∧
    (∀ (sch : Schema) (input : Obj) (name : String) (q : ℚ),
      (name, FieldCheck.numInt) ∈ sch →
      getField input name = some (Value.vNum q) → q.den ≠ 1 →
      parseOk (safeParse sch input) = false) ∧
    ("latitude", FieldCheck.num) ∈ insertShopSchema ∧
    ("targetShops", FieldCheck.numInt) ∈ insertTargetSchema := by
  refine ⟨?_, ?_, by simp [insertShopSchema], by simp [insertTargetSchema]⟩
  · intro sch input name s hmem h
    refine safeParse_error_of_issue _ _ name FieldCheck.num hmem ?_
    rw [h]
    rfl
  · intro sch input name q hmem h hden
    refine safeParse_error_of_issue _ _ name FieldCheck.numInt hmem ?_
    rw [h]
    show parseOk (if q.den = 1 then _ else _) = false
    rw [if_neg hden]
    rfl

/-- Witness for C6 at concrete inputs: a shop whose latitude is the
string not-a-number, and a target whose targetShops is 10.5. -/
theorem validation_rejects_mistyped_numbers_witness :
    parseOk (safeParse insertShopSchema
      [("name", Value.vStr "Bad Coords"),
       ("latitude", Value.vStr "not-a-number"),
       ("longitude", Value.vNum 36.86)]) = false ∧
    parseOk (safeParse insertTargetSchema
      [("driverId", Value.vStr "d1"), ("period", Value.vStr "weekly"),
       ("targetShops", Value.vNum (mkRat 21 2)), ("targetDeliveries", Value.vNum 20),
       ("startDate", Value.vStr "2026-02-18"),
       ("endDate", Value.vStr "2026-02-24")]) = false :=
  ⟨validation_rejects_mistyped_numbers.1 insertShopSchema _ "latitude"
      "not-a-number" (by simp [insertShopSchema]) rfl,
   validation_rejects_mistyped_numbers.2.1 insertTargetSchema _ "targetShops"
      (mkRat 21 2) (by simp [insertTargetSchema]) rfl (by decide)⟩

/-- C7: safeParse always returns either the normalized record or a
structured failure that names every violated field, not just the
first; the empty input against the shop schema reports the missing
name, latitude and longitude together. -/
theorem safeParse_lists_every_violation :
    (∀ (sch : Schema) (input : Obj),
      (∃ out, safeParse sch input = Except.ok out) ∨
      (∃ es, safeParse sch input = Except.error es ∧ ¬ es = [] ∧
        ∀ (name : String) (c : FieldCheck), (name, c) ∈ sch →
          parseOk (checkField c (getField input name)) = false → name ∈ es)) ∧
    (∃ es, safeParse insertShopSchema [] = Except.error es ∧
      "name" ∈ es ∧ "latitude" ∈ es ∧ "longitude" ∈ es) := by
  constructor
  · intro sch input
    by_cases h : (parseFields input sch).2 = []
    · left
      exact ⟨(parseFields input sch).1, by unfold safeParse; rw [if_pos h]⟩
    · right
      refine ⟨(parseFields input sch).2, by unfold safeParse; rw [if_neg h], h, ?_⟩
      intro name c hmem hfail
      exact parseFields_error_mem input sch name c hmem hfail
  · exact ⟨["name", "latitude", "longitude"], rfl, by decide, by decide, by decide⟩

/-- Witness for C7: applying the dichotomy to the driver schema on the
empty input pins down the failure and shows vehicleType among the
reported violations. -/
theorem safeParse_lists_every_violation_witness :
    ∃ es, safeParse insertDriverSchema [] = Except.error es ∧
      "vehicleType" ∈ es := by
  rcases safeParse_lists_every_violation.1 insertDriverSchema [] with
    ⟨out, hok⟩ | ⟨es, herr, _, hmem⟩
  · rw [show safeParse insertDriverSchema [] =
      Except.error ["name", "phone", "vehicleType"] from rfl] at hok
    cases hok
  · refine ⟨es, herr, ?_⟩
    refine hmem "vehicleType" (FieldCheck.str 1) ?_ rfl
    simp [insertDriverSchema]

/-- C8: the route lifecycle over the HTTP surface: POST with name R1
and date 2026-02-18 answers 201 with default planned status and empty
shopIds; GET of the returned id answers the identical record; PATCH of
the status followed by GET shows the new status with name and date
unchanged; after DELETE a GET answers 404. -/
theorem route_lifecycle_http :
    (postRoutes AppState.init
      [("name", Value.vStr "R1"), ("date", Value.vStr "2026-02-18")]).1.status = 201 ∧
    (let step1 := postRoutes AppState.init
        [("name", Value.vStr "R1"), ("date", Value.vStr "2026-02-18")]
     let body1 := step1.1.body.getD []
     getField body1 "status" = some (Value.vStr "planned") ∧
     getField body1 "shopIds" = some (Value.vArrStr []) ∧
     getField body1 "id" = some (Value.vStr "test-1") ∧
     getRoutes_id step1.2 "test-1" = { status := 200, body := some body1 } ∧
     (let step2 := patchRoutes_id step1.2 "test-1"
        [("status", Value.vStr "in_progress")]
      step2.1.status = 200 ∧
      (getRoutes_id step2.2 "test-1").status = 200 ∧
      (getRoutes_id step2.2 "test-1").body = step2.1.body ∧
      getField ((getRoutes_id step2.2 "test-1").body.getD [])
        "status" = some (Value.vStr "in_progress") ∧
      getField ((getRoutes_id step2.2 "test-1").body.getD [])
        "name" = some (Value.vStr "R1") ∧
      getField ((getRoutes_id step2.2 "test-1").body.getD [])
        "date" = some (Value.vStr "2026-02-18") ∧
      (let step3 := delRoutes_id step2.2 "test-1"
       step3.1.status = 204 ∧ step3.1.body = none ∧
       (getRoutes_id step3.2 "test-1").status = 404))) := by
  decide

/-- C9: an optimize interaction either resolves with a full
RouteOptimizationResult whose timeSaved and fuelSaved are non-negative
(success toast shown, exactly that result appended to the history
cache) or fails with the generic failure toast and the history cache
untouched — no partial result is ever recorded. -/
theorem optimize_result_or_failure_notice (st : ClientState)
    (oracle : Option RouteOptimizationResult) :
    (∃ r, (runOptimize st oracle).1 = Except.ok r ∧
      0 ≤ r.timeSaved ∧ 0 ≤ r.fuelSaved ∧
      (runOptimize st oracle).2.toasts = st.toasts ++ ["Route Optimized"] ∧
      (runOptimize st oracle).2.optimizationHistory =
        st.optimizationHistory ++ [r]) ∨
    ((runOptimize st oracle).1 = Except.error () ∧
      (runOptimize st oracle).2.toasts = st.toasts ++ ["Optimization Failed"] ∧
      (runOptimize st oracle).2.optimizationHistory = st.optimizationHistory) := by
  cases oracle with
  | none => exact Or.inr ⟨rfl, rfl, rfl⟩
  | some r =>
      by_cases h : 0 ≤ r.timeSaved ∧ 0 ≤ r.fuelSaved
      · left
        refine ⟨r, ?_, h.1, h.2, ?_, ?_⟩ <;>
          simp [runOptimize, optimizeCollaborator, h, onOptimizeSuccess]
      · right
        refine ⟨?_, ?_, ?_⟩ <;>
          simp [runOptimize, optimizeCollaborator, h, onOptimizeError]

end NatureFrontier
